import Mathlib

/-!
Verification of the transaction-pool maintenance engine
(`core/transaction-pool/src/maintainer.rs`): the revalidation scheduling
state machine (`TxPoolRevalidationStatus`), and the Full and Light
transaction-pool maintainers (`DefaultFullTransactionPoolMaintainer::maintain`,
`DefaultLightTransactionPoolMaintainer::{maintain, prune, revalidate}`).

The embedding is shallow: collaborator calls (client block/header fetch,
remote body fetch, queue submit/prune/revalidate) are modelled through an
environment record that fixes the outcome of each call, and a maintainer
run is a total function from that environment to the ordered list of
collaborator-visible events it issues (plus the final revalidation status
for the Light maintainer, and the unit result of the returned task).
`Instant::now()` is modelled as a natural-number clock passed in the
environment; durations and block numbers are naturals.
-/

namespace Maintainer

/-- Block identifier (`sr_primitives::generic::BlockId`): by hash or by number.
Hashes are modelled as naturals. -/
inductive BlockId where
  | hash (h : Nat)
  | number (n : Nat)
deriving DecidableEq, Repr

/-- A transaction / extrinsic. `is_signed` mirrors
`Extrinsic::is_signed(&self) -> Option<bool>`; the payload stands for the
opaque content. -/
structure Tx where
  payload : Nat
  is_signed : Option Bool
deriving DecidableEq, Repr

/-- A block header: parent hash and block number, the two fields the
maintainers read (`header().parent_hash()`, `header().number()`). -/
structure Header where
  parent_hash : Nat
  number : Nat
deriving DecidableEq, Repr

/-- A block as the maintainers see it: its header and its extrinsics
(`block.deconstruct().1` / `block.extrinsics()`). -/
structure Block where
  header : Header
  extrinsics : List Tx
deriving DecidableEq, Repr

/-- The status of transactions revalidation at the light tx pool
(`TxPoolRevalidationStatus<N>`), with `Instant` as a natural clock value. -/
inductive TxPoolRevalidationStatus where
  | notScheduled
  | scheduled (revalidateAtTime : Option Nat) (revalidateAtBlock : Option Nat)
  | inProgress
deriving DecidableEq, Repr

namespace TxPoolRevalidationStatus

/-- `TxPoolRevalidationStatus::clear`: called when revalidation is completed
(or forced by the Light maintainer's empty-pool path). -/
def clear (_s : TxPoolRevalidationStatus) : TxPoolRevalidationStatus :=
  notScheduled

/-- `TxPoolRevalidationStatus::is_required(block, revalidate_time_period,
revalidate_block_period)`. Returns the updated status together with the
boolean result; `now` is the value `Instant::now()` observes during the call. -/
def is_required (s : TxPoolRevalidationStatus) (now : Nat) (block : Nat)
    (revalidate_time_period : Option Nat) (revalidate_block_period : Option Nat) :
    TxPoolRevalidationStatus × Bool :=
  match s with
  | notScheduled =>
      (scheduled (revalidate_time_period.map (fun period => now + period))
        (revalidate_block_period.map (fun period => block + period)), false)
  | scheduled revalidate_at_time revalidate_at_block =>
      let required :=
        (revalidate_at_time.map (fun at_ => decide (now ≥ at_))).getD false
        || (revalidate_at_block.map (fun at_ => decide (block ≥ at_))).getD false
      (if required then inProgress else scheduled revalidate_at_time revalidate_at_block,
        required)
  | inProgress => (inProgress, false)

end TxPoolRevalidationStatus

/-- A collaborator-visible event issued during a maintainer run, in execution
order: client block fetch for the new block, queue submission, queue pruning,
header lookup, remote body fetch, prune-by-known-hash, ready-revalidation,
and the warning/println log lines emitted on collaborator failures. -/
inductive Event where
  | clientBlock (id : BlockId)
  | submitAt (id : BlockId) (txs : List Tx) (force : Bool)
  | prune (id : BlockId) (parent : BlockId) (extrinsics : List Tx)
  | headerLookup (id : BlockId)
  | remoteBody (headerNumber : Nat)
  | pruneKnown (id : BlockId) (hashes : List Nat)
  | revalidateReady (id : BlockId)
  | warn (msg : String)
  | logPrintln (msg : String)
deriving DecidableEq, Repr

/-- True exactly on queue `prune` events. -/
def Event.isPrune : Event → Bool
  | .prune _ _ _ => true
  | _ => false

/-- True exactly on client block-fetch events for the new block. -/
def Event.isClientBlock : Event → Bool
  | .clientBlock _ => true
  | _ => false

/-- Environment of one `DefaultFullTransactionPoolMaintainer::maintain` call:
the outcome of each collaborator call it may issue. `block` is
`Client::block` (also used, per retracted hash, inside the resubmission
iterator); `statusIsEmpty` is `pool.status().is_empty()`; `submitResult` and
`pruneResult` are the outcomes of `pool.submit_at` and `pool.prune`. -/
structure FullEnv where
  block : BlockId → Except String (Option Block)
  statusIsEmpty : Bool
  submitResult : Except String Unit
  pruneResult : Except String Unit

/-- The `retracted_transactions` iterator of the Full maintainer:
`retracted.filter_map(|hash| client.block(BlockId::hash(hash)).ok().unwrap_or(None))
  .flat_map(|block| block.deconstruct().1).filter(|tx| tx.is_signed().unwrap_or(false))`. -/
def retractedTransactions (fetch : BlockId → Except String (Option Block))
    (retracted : List Nat) : List Tx :=
  (((retracted.filterMap (fun h =>
      match fetch (BlockId.hash h) with
      | .ok ob => ob
      | .error _ => none)).flatMap (fun b => b.extrinsics)).filter
    (fun tx => tx.is_signed.getD false))

/-- Events of the resubmission future: the `submit_at(id, retracted_transactions,
true)` call followed by the warning logged when its result is an error. -/
def fullResubmitTrace (env : FullEnv) (id : BlockId) (retracted : List Nat) :
    List Event :=
  Event.submitAt id (retractedTransactions env.block retracted) true ::
    (match env.submitResult with
     | .ok _ => []
     | .error e => [Event.warn ("Error re-submitting transactions: " ++ e)])

/-- `DefaultFullTransactionPoolMaintainer::maintain`, as the ordered event
trace of one call (futures are lazy: the new-block fetch and its error log
happen at call time, the resubmission events run when the returned task is
polled, and the prune future is sequenced after resubmission by
`resubmit_future.then(move |_| prune_future)`), paired with the unit value
the returned task completes with. -/
def fullMaintain (env : FullEnv) (id : BlockId) (retracted : List Nat) :
    List Event × Unit :=
  if env.statusIsEmpty then
    (fullResubmitTrace env id retracted, ())
  else
    match env.block id with
    | .ok (some b) =>
        (Event.clientBlock id ::
          (fullResubmitTrace env id retracted ++
            Event.prune id (BlockId.hash b.header.parent_hash) b.extrinsics ::
              (match env.pruneResult with
               | .ok _ => []
               | .error e => [Event.warn ("Error pruning transactions: " ++ e)])), ())
    | .ok none => (Event.clientBlock id :: fullResubmitTrace env id retracted, ())
    | .error e =>
        (Event.clientBlock id ::
          Event.warn ("Error reading block body: " ++ e) ::
            fullResubmitTrace env id retracted, ())

/-- Environment of one `DefaultLightTransactionPoolMaintainer::maintain` call:
pool emptiness, the `Client::header` lookup, the remote body fetch outcome,
the pool's transaction hashing, the outcomes of `prune_known` and
`revalidate_ready`, the clock value observed by `Instant::now()`, the
configured revalidation periods, and the shared revalidation status at
entry. -/
structure LightEnv where
  statusIsEmpty : Bool
  header : BlockId → Except String (Option Header)
  remoteBody : Except String (List Tx)
  hashOf : Tx → Nat
  pruneKnownResult : Except String Unit
  revalidateReadyResult : Except String Unit
  now : Nat
  revalidateTimePeriod : Option Nat
  revalidateBlockPeriod : Option Nat
  status : TxPoolRevalidationStatus

/-- The header resolution of the Light maintainer:
`client.header(id).and_then(|h| h.ok_or(Error::UnknownBlock(...)))`. -/
def headerResult (env : LightEnv) (id : BlockId) : Except String Header :=
  match env.header id with
  | .ok (some h) => .ok h
  | .ok none => .error "UnknownBlock"
  | .error e => .error e

/-- Events of `DefaultLightTransactionPoolMaintainer::prune`: remote body
fetch for the new block's header, then on success `prune_known(id, hashes)`
with the pool-assigned hashes of the returned transactions; either failure is
logged by the single trailing warn. -/
def lightPruneTrace (env : LightEnv) (id : BlockId) (h : Header) : List Event :=
  Event.remoteBody h.number ::
    (match env.remoteBody with
     | .error e => [Event.warn ("Error pruning known transactions: " ++ e)]
     | .ok txs =>
         Event.pruneKnown id (txs.map env.hashOf) ::
           (match env.pruneKnownResult with
            | .ok _ => []
            | .error e => [Event.warn ("Error pruning known transactions: " ++ e)]))

/-- `DefaultLightTransactionPoolMaintainer::revalidate`: consult
`is_required` on the shared status (under the lock, at future-construction
time); if required, run `revalidate_ready(id)`, log its error if any, and
then `clear()` the status unconditionally; otherwise do nothing. Returns the
events together with the revalidation status after the step. -/
def lightRevalidate (env : LightEnv) (id : BlockId) (blockNumber : Nat) :
    List Event × TxPoolRevalidationStatus :=
  let armed := env.status.is_required env.now blockNumber
    env.revalidateTimePeriod env.revalidateBlockPeriod
  if armed.2 then
    (Event.revalidateReady id ::
       (match env.revalidateReadyResult with
        | .ok _ => []
        | .error e => [Event.warn ("Error revalidating known transactions: " ++ e)]),
      TxPoolRevalidationStatus.notScheduled)
  else ([], armed.1)

/-- `DefaultLightTransactionPoolMaintainer::maintain` (the `retracted`
argument is ignored by the code): on an empty pool, `clear()` the status and
return immediately; otherwise resolve the header (logging and returning on
failure), then join the prune and revalidate futures. Returns the event
trace, the final revalidation status, and the unit result of the task. -/
def lightMaintain (env : LightEnv) (id : BlockId) (_retracted : List Nat) :
    List Event × TxPoolRevalidationStatus × Unit :=
  if env.statusIsEmpty then
    ([], env.status.clear, ())
  else
    match headerResult env id with
    | .error e =>
        ([Event.headerLookup id,
          Event.logPrintln ("Failed to maintain light tx pool: " ++ e)],
          env.status, ())
    | .ok h =>
        let revalidated := lightRevalidate env id h.number
        (Event.headerLookup id :: (lightPruneTrace env id h ++ revalidated.1),
          revalidated.2, ())

/-- One mutation of the shared revalidation status, as performed by the code:
an `is_required` call (with the clock value, current block number, and the
two configured periods), or a `clear` (invoked after a completed
revalidation pass, or unconditionally by the Light maintainer's empty-pool
path). -/
inductive SchedOp where
  | isReq (now : Nat) (block : Nat) (tp : Option Nat) (bp : Option Nat)
  | clear
deriving DecidableEq, Repr

/-- Apply one mutation to the revalidation status, discarding the boolean
result of `is_required`. -/
def applyOp (s : TxPoolRevalidationStatus) : SchedOp → TxPoolRevalidationStatus
  | .isReq now block tp bp => (s.is_required now block tp bp).1
  | .clear => s.clear

/-- Run a sequence of status mutations from a starting status. -/
def runOps (s : TxPoolRevalidationStatus) : List SchedOp → TxPoolRevalidationStatus
  | [] => s
  | op :: rest => runOps (applyOp s op) rest

/-- The transition discipline asserted by the spec invariant: a mutation
either leaves the status unchanged or advances it one step along the cycle
NotScheduled to Scheduled to InProgress to NotScheduled, never skipping
InProgress. -/
def cycleStepNoSkip : TxPoolRevalidationStatus → TxPoolRevalidationStatus → Bool
  | s, s' =>
    s = s' ||
    (match s, s' with
     | .notScheduled, .scheduled _ _ => true
     | .scheduled _ _, .inProgress => true
     | .inProgress, .notScheduled => true
     | _, _ => false)

/-- Run a sequence of `is_required` calls, each with both periods `None`;
every element of `calls` supplies the clock value and block number of one
call. Returns the boolean results in call order. -/
def runNoneSeq (s : TxPoolRevalidationStatus) : List (Nat × Nat) → List Bool
  | [] => []
  | c :: rest =>
      let step := s.is_required c.1 c.2 none none
      step.2 :: runNoneSeq step.1 rest

/-- A sample block: parent hash 7, number 3, one signed and one unsigned
extrinsic. -/
def sampleBlock : Block :=
  ⟨⟨7, 3⟩, [⟨1, some true⟩, ⟨2, some false⟩]⟩

/-- A Full-maintainer environment whose pool reports empty. -/
def fullEnvEmpty : FullEnv :=
  ⟨fun _ => Except.ok (some sampleBlock), true, Except.ok (), Except.ok ()⟩

/-- A Full-maintainer environment with a non-empty pool, a readable new
block, and failing submit and prune calls. -/
def fullEnvBusy : FullEnv :=
  ⟨fun _ => Except.ok (some sampleBlock), false,
    Except.error "submit failed", Except.error "prune failed"⟩

/-- A Full-maintainer environment whose new-block read fails. -/
def fullEnvBlockErr : FullEnv :=
  ⟨fun _ => Except.error "io error", false, Except.error "submit failed",
    Except.ok ()⟩

/-- A Light-maintainer environment whose header lookup fails. -/
def lightEnvHeaderErr : LightEnv :=
  ⟨false, fun _ => Except.error "header io", Except.error "body io",
    fun tx => tx.payload, Except.ok (), Except.ok (), 0, none, none,
    TxPoolRevalidationStatus.notScheduled⟩

/-- A Light-maintainer environment with a resolvable header, a failing
remote body fetch, a failing revalidation call, and a block-due schedule. -/
def lightEnvBusy : LightEnv :=
  ⟨false, fun _ => Except.ok (some ⟨7, 5⟩), Except.error "body io",
    fun tx => tx.payload, Except.ok (), Except.error "reval failed", 0,
    none, none, TxPoolRevalidationStatus.scheduled none (some 0)⟩

/-- A Light-maintainer environment whose revalidation status is idle. -/
def lightEnvIdle : LightEnv :=
  ⟨false, fun _ => Except.ok (some ⟨7, 5⟩), Except.ok [],
    fun tx => tx.payload, Except.ok (), Except.ok (), 0, some 60, some 20,
    TxPoolRevalidationStatus.notScheduled⟩

/-- A Light-maintainer environment with an empty pool and an armed
schedule. -/
def lightEnvEmptyPool : LightEnv :=
  ⟨true, fun _ => Except.ok none, Except.ok [], fun tx => tx.payload,
    Except.ok (), Except.ok (), 0, some 60, some 20,
    TxPoolRevalidationStatus.scheduled (some 3) none⟩

end Maintainer

namespace Maintainer

open TxPoolRevalidationStatus

/-- Along a sequence of `is_required` calls with both periods `None`, a
status that is `NotScheduled` or `Scheduled(None, None)` yields only `false`
results. -/
lemma runNoneSeq_all_false (calls : List (Nat × Nat)) :
    ∀ s, s = notScheduled ∨ s = scheduled none none →
      (runNoneSeq s calls).all (fun r => !r) = true := by
  induction calls with
  | nil => intro s _; rfl
  | cons c rest ih =>
      intro s hs
      rcases hs with h | h <;> subst h <;>
        simp [runNoneSeq, is_required, ih (scheduled none none) (Or.inr rfl)]

/-- C1: `is_required` implements exactly the claimed transition function.
From `NotScheduled` it arms `Scheduled(now + time_period if provided,
block + block_period if provided)` and returns `false`; from
`Scheduled(t, b)` it returns `true` exactly when (`t` is set and `now ≥ t`)
or (`b` is set and `block ≥ b`), moving to `InProgress` when it returns
`true` and staying `Scheduled(t, b)` otherwise; from `InProgress` it always
returns `false` and leaves the status unchanged. -/
theorem is_required_transition (now block : Nat) (tp bp : Option Nat)
    (t b : Option Nat) :
    is_required notScheduled now block tp bp
        = (scheduled (tp.map (fun p => now + p)) (bp.map (fun p => block + p)), false)
    ∧ ((is_required (scheduled t b) now block tp bp).2 = true
        ↔ (∃ t0, t = some t0 ∧ now ≥ t0) ∨ (∃ b0, b = some b0 ∧ block ≥ b0))
    ∧ (is_required (scheduled t b) now block tp bp).1
        = (if (is_required (scheduled t b) now block tp bp).2 then inProgress
           else scheduled t b)
    ∧ is_required inProgress now block tp bp = (inProgress, false) := by
  refine ⟨rfl, ?_, ?_, rfl⟩
  · cases t <;> cases b <;> simp [is_required]
  · cases t <;> cases b <;> simp [is_required]

/-- C7: with both periods `None`, the first call from `NotScheduled` arms
`Scheduled(None, None)` and returns `false`, and along any sequence of
`is_required` calls starting from `NotScheduled` in which both periods are
always `None`, no call ever returns `true`: revalidation is permanently
disabled. -/
theorem is_required_none_none_disabled :
    (∀ now block, is_required notScheduled now block none none
        = (scheduled none none, false))
    ∧ ∀ calls : List (Nat × Nat),
        (runNoneSeq notScheduled calls).all (fun r => !r) = true :=
  ⟨fun _ _ => rfl, fun calls => runNoneSeq_all_false calls _ (Or.inl rfl)⟩

/-- C10: in the `Scheduled` state, the period arguments of `is_required` are
ignored; the result and the successor status depend only on the thresholds
stored when the schedule was armed. -/
theorem scheduled_ignores_period_arguments
    (t b : Option Nat) (now block : Nat) (tp bp tp2 bp2 : Option Nat) :
    is_required (scheduled t b) now block tp bp
      = is_required (scheduled t b) now block tp2 bp2 := rfl

/-- C6 counterexample: the state `Scheduled(None, Some 5)` is reachable from
`NotScheduled` by one `is_required` call, and a `clear` (the Light
maintainer's empty-pool path performs exactly this, whatever the state) maps
it directly to `NotScheduled` — a transition that skips `InProgress`, which
the claimed cycle discipline forbids. -/
theorem revalidation_cycle_counterexample :
    runOps notScheduled [SchedOp.isReq 0 0 none (some 5)] = scheduled none (some 5)
    ∧ applyOp (scheduled none (some 5)) SchedOp.clear = notScheduled
    ∧ cycleStepNoSkip (scheduled none (some 5)) notScheduled = false
    ∧ (lightMaintain
        ⟨true, fun _ => Except.ok none, Except.ok [], fun _ => 0,
          Except.ok (), Except.ok (), 0, none, none,
          scheduled none (some 5)⟩
        (BlockId.number 0) []).2.1 = notScheduled := by
  refine ⟨rfl, rfl, rfl, rfl⟩

/-- C6 amended: every `is_required` call moves the status along the cycle
without skipping `InProgress` (arming from `NotScheduled`, firing from
`Scheduled`, or leaving it unchanged), but `clear` resets any status —
including `Scheduled`, through the empty-pool short-circuit — directly to
`NotScheduled`. -/
theorem revalidation_cycle_amended :
    (∀ (s : TxPoolRevalidationStatus) (now block : Nat) (tp bp : Option Nat),
        cycleStepNoSkip s (applyOp s (SchedOp.isReq now block tp bp)) = true)
    ∧ ∀ s : TxPoolRevalidationStatus, applyOp s SchedOp.clear = notScheduled := by
  refine ⟨?_, fun s => rfl⟩
  intro s now block tp bp
  cases s with
  | notScheduled => simp [applyOp, is_required, cycleStepNoSkip]
  | scheduled t b =>
      simp only [applyOp, is_required]
      split <;> simp [cycleStepNoSkip]
  | inProgress => simp [applyOp, is_required, cycleStepNoSkip]

/-- The resubmission pipeline computes, block by block: from each retracted
block whose fetch succeeded with a present body, the user-signed extrinsics;
a fetch error or a missing block contributes nothing. -/
lemma retractedTransactions_flatMap (fetch : BlockId → Except String (Option Block))
    (retracted : List Nat) :
    retractedTransactions fetch retracted
      = retracted.flatMap (fun h =>
          match fetch (BlockId.hash h) with
          | .ok (some b) => b.extrinsics.filter (fun tx => tx.is_signed.getD false)
          | .ok none => []
          | .error _ => []) := by
  induction retracted with
  | nil => rfl
  | cons hd tl ih =>
      simp only [retractedTransactions, List.filterMap_cons] at ih ⊢
      cases hfetch : fetch (BlockId.hash hd) with
      | ok ob =>
          cases ob with
          | none => simpa [hfetch] using ih
          | some b => simp [hfetch, List.filter_append, ih]
      | error e => simpa [hfetch] using ih

/-- C4: the Full maintainer always issues exactly one `submit_at`, at the new
block identifier, with the re-insertion flag `true`, and its transaction list
is exactly the user-signed transactions of the bodies of those retracted
blocks whose fetch succeeded (a fetch error or a missing block skips only
that block's transactions). -/
theorem full_resubmission_content (env : FullEnv) (id : BlockId)
    (retracted : List Nat) :
    Event.submitAt id
      (retracted.flatMap (fun h =>
        match env.block (BlockId.hash h) with
        | .ok (some b) => b.extrinsics.filter (fun tx => tx.is_signed.getD false)
        | .ok none => []
        | .error _ => [])) true ∈ (fullMaintain env id retracted).1 := by
  rw [← retractedTransactions_flatMap]
  unfold fullMaintain
  split
  · simp [fullResubmitTrace]
  · cases hb : env.block id with
    | ok ob => cases ob <;> simp [fullResubmitTrace]
    | error e => simp [fullResubmitTrace]

/-- C3: when the pool status reports empty, the Full maintainer issues no
new-block fetch and no prune call, but still issues the `submit_at`
resubmission; when the pool is non-empty, both the resubmission and the
pruning step (which begins with the new-block fetch) run. -/
theorem full_empty_short_circuit (env : FullEnv) (id : BlockId)
    (retracted : List Nat) :
    (env.statusIsEmpty = true →
      Event.submitAt id (retractedTransactions env.block retracted) true
          ∈ (fullMaintain env id retracted).1
      ∧ ((fullMaintain env id retracted).1.all
          (fun e => !e.isPrune && !e.isClientBlock)) = true)
    ∧ (env.statusIsEmpty = false →
      Event.submitAt id (retractedTransactions env.block retracted) true
          ∈ (fullMaintain env id retracted).1
      ∧ ((fullMaintain env id retracted).1.any (fun e => e.isClientBlock)) = true) := by
  constructor
  · intro hempty
    refine ⟨?_, ?_⟩
    · simp [fullMaintain, hempty, fullResubmitTrace]
    · cases hs : env.submitResult <;>
        simp [fullMaintain, hempty, fullResubmitTrace, hs, Event.isPrune,
          Event.isClientBlock]
  · intro hne
    refine ⟨?_, ?_⟩
    · unfold fullMaintain
      rw [hne]
      cases hb : env.block id with
      | ok ob => cases ob <;> simp [fullResubmitTrace]
      | error e => simp [fullResubmitTrace]
    · unfold fullMaintain
      rw [hne]
      cases hb : env.block id with
      | ok ob => cases ob <;> simp [Event.isClientBlock]
      | error e => simp [Event.isClientBlock]

/-- C5: when the Full maintainer does not short-circuit and the new block is
readable, the trace splits around the single prune event — issued with the
new block identifier, the parent identifier from the new block's header, and
the new block's extrinsics — and the entire resubmission step (the
`submit_at` call and, if it failed, its warning) lies strictly before it. -/
theorem full_resubmit_before_prune (env : FullEnv) (id : BlockId)
    (retracted : List Nat) (b : Block)
    (hne : env.statusIsEmpty = false) (hb : env.block id = .ok (some b)) :
    ∃ pre post,
      (fullMaintain env id retracted).1
        = pre ++ Event.prune id (BlockId.hash b.header.parent_hash) b.extrinsics :: post
      ∧ Event.submitAt id (retractedTransactions env.block retracted) true ∈ pre
      ∧ ∀ e, env.submitResult = .error e →
          Event.warn ("Error re-submitting transactions: " ++ e) ∈ pre := by
  refine ⟨Event.clientBlock id :: fullResubmitTrace env id retracted,
    (match env.pruneResult with
     | .ok _ => []
     | .error e => [Event.warn ("Error pruning transactions: " ++ e)]),
    ?_, ?_, ?_⟩
  · simp [fullMaintain, hne, hb]
  · simp [fullResubmitTrace]
  · intro e he
    simp [fullResubmitTrace, he]

/-- When `is_required` answers `false`, the status it leaves behind is never
`NotScheduled`: arming yields `Scheduled`, a non-due `Scheduled` stays, and
`InProgress` stays. -/
lemma is_required_false_not_cleared (s : TxPoolRevalidationStatus)
    (now block : Nat) (tp bp : Option Nat)
    (h : (s.is_required now block tp bp).2 = false) :
    (s.is_required now block tp bp).1 ≠ notScheduled := by
  cases s with
  | notScheduled => simp [is_required]
  | scheduled t b =>
      simp only [is_required] at h ⊢
      simp [h]
  | inProgress => simp [is_required]

/-- C2: for every outcome of every collaborator call, the Full and the Light
maintainer both return a task completing with unit — no error reaches the
caller — and each collaborator failure only produces a log line in the
trace: the Full maintainer logs submission errors, new-block read errors and
prune errors; the Light maintainer logs header-resolution failures and
remote-body failures. -/
theorem maintain_never_fails (envF : FullEnv) (envL : LightEnv)
    (id : BlockId) (retracted : List Nat) :
    (fullMaintain envF id retracted).2 = ()
    ∧ (lightMaintain envL id retracted).2.2 = ()
    ∧ (∀ e, envF.submitResult = .error e →
        Event.warn ("Error re-submitting transactions: " ++ e)
          ∈ (fullMaintain envF id retracted).1)
    ∧ (∀ e, envF.statusIsEmpty = false → envF.block id = .error e →
        Event.warn ("Error reading block body: " ++ e)
          ∈ (fullMaintain envF id retracted).1)
    ∧ (∀ e b, envF.statusIsEmpty = false → envF.block id = .ok (some b) →
        envF.pruneResult = .error e →
        Event.warn ("Error pruning transactions: " ++ e)
          ∈ (fullMaintain envF id retracted).1)
    ∧ (∀ e, envL.statusIsEmpty = false → headerResult envL id = .error e →
        Event.logPrintln ("Failed to maintain light tx pool: " ++ e)
          ∈ (lightMaintain envL id retracted).1)
    ∧ (∀ e h, envL.statusIsEmpty = false → headerResult envL id = .ok h →
        envL.remoteBody = .error e →
        Event.warn ("Error pruning known transactions: " ++ e)
          ∈ (lightMaintain envL id retracted).1) := by
  refine ⟨rfl, rfl, ?_, ?_, ?_, ?_, ?_⟩
  · intro e he
    unfold fullMaintain
    split
    · simp [fullResubmitTrace, he]
    · cases hb : envF.block id with
      | ok ob => cases ob <;> simp [fullResubmitTrace, he]
      | error e2 => simp [fullResubmitTrace, he]
  · intro e hne hb
    simp [fullMaintain, hne, hb]
  · intro e b hne hb hp
    simp [fullMaintain, hne, hb, hp]
  · intro e hne hh
    simp [lightMaintain, hne, hh]
  · intro e h hne hh hr
    simp [lightMaintain, hne, hh, lightPruneTrace, hr]

/-- C8: when the pool reports empty at entry, the Light maintainer clears the
revalidation status to `NotScheduled` — whatever state it was in — and the
returned task completes having issued no header lookup, no remote body
fetch, no prune call and no revalidation call (an empty trace). -/
theorem light_empty_clears (env : LightEnv) (id : BlockId) (retracted : List Nat)
    (h : env.statusIsEmpty = true) :
    (lightMaintain env id retracted).1 = []
    ∧ (lightMaintain env id retracted).2.1 = notScheduled := by
  simp [lightMaintain, h, clear]

/-- C9: in the Light maintainer's revalidate step, if the scheduler reports
revalidation as due, `revalidate_ready` is invoked at the new block and the
status is afterwards `NotScheduled` unconditionally, a `revalidate_ready`
error being only logged; if it is not due, no queue operation is issued and
the status is not cleared by this step. -/
theorem light_revalidate_step (env : LightEnv) (id : BlockId) (n : Nat) :
    ((env.status.is_required env.now n
        env.revalidateTimePeriod env.revalidateBlockPeriod).2 = true →
      Event.revalidateReady id ∈ (lightRevalidate env id n).1
      ∧ (lightRevalidate env id n).2 = notScheduled
      ∧ ∀ e, env.revalidateReadyResult = .error e →
          Event.warn ("Error revalidating known transactions: " ++ e)
            ∈ (lightRevalidate env id n).1)
    ∧ ((env.status.is_required env.now n
        env.revalidateTimePeriod env.revalidateBlockPeriod).2 = false →
      (lightRevalidate env id n).1 = []
      ∧ (lightRevalidate env id n).2 ≠ notScheduled) := by
  constructor
  · intro hdue
    refine ⟨?_, ?_, ?_⟩
    · simp [lightRevalidate, hdue]
    · simp [lightRevalidate, hdue]
    · intro e he
      simp [lightRevalidate, hdue, he]
  · intro hnot
    refine ⟨?_, ?_⟩
    · simp [lightRevalidate, hnot]
    · simpa [lightRevalidate, hnot] using
        is_required_false_not_cleared env.status env.now n
          env.revalidateTimePeriod env.revalidateBlockPeriod hnot

/-- Witness for C2 at concrete environments: both maintainers complete with
unit and every provoked collaborator failure shows up as a log event. -/
theorem maintain_never_fails_witness :
    (fullMaintain fullEnvBlockErr (BlockId.number 9) [4]).2 = ()
    ∧ (lightMaintain lightEnvBusy (BlockId.number 9) [4]).2.2 = ()
    ∧ Event.warn ("Error re-submitting transactions: " ++ "submit failed")
        ∈ (fullMaintain fullEnvBlockErr (BlockId.number 9) [4]).1
    ∧ Event.warn ("Error reading block body: " ++ "io error")
        ∈ (fullMaintain fullEnvBlockErr (BlockId.number 9) [4]).1
    ∧ Event.warn ("Error pruning transactions: " ++ "prune failed")
        ∈ (fullMaintain fullEnvBusy (BlockId.number 9) [4]).1
    ∧ Event.logPrintln ("Failed to maintain light tx pool: " ++ "header io")
        ∈ (lightMaintain lightEnvHeaderErr (BlockId.number 9) [4]).1
    ∧ Event.warn ("Error pruning known transactions: " ++ "body io")
        ∈ (lightMaintain lightEnvBusy (BlockId.number 9) [4]).1 := by
  obtain ⟨a1, -, a3, a4, -, a6, -⟩ :=
    maintain_never_fails fullEnvBlockErr lightEnvHeaderErr (BlockId.number 9) [4]
  obtain ⟨-, b2, -, -, b5, -, b7⟩ :=
    maintain_never_fails fullEnvBusy lightEnvBusy (BlockId.number 9) [4]
  exact ⟨a1, b2, a3 "submit failed" rfl, a4 "io error" rfl rfl,
    b5 "prune failed" sampleBlock rfl rfl rfl,
    a6 "header io" rfl rfl,
    b7 "body io" ⟨7, 5⟩ rfl rfl rfl⟩

/-- Witness for C3 at concrete environments: an empty pool yields a trace
with the submission but no new-block fetch and no prune, a busy pool yields
both the submission and the new-block fetch. -/
theorem full_empty_short_circuit_witness :
    (Event.submitAt (BlockId.number 9)
        (retractedTransactions fullEnvEmpty.block [4]) true
        ∈ (fullMaintain fullEnvEmpty (BlockId.number 9) [4]).1
      ∧ ((fullMaintain fullEnvEmpty (BlockId.number 9) [4]).1.all
          (fun e => !e.isPrune && !e.isClientBlock)) = true)
    ∧ (Event.submitAt (BlockId.number 9)
        (retractedTransactions fullEnvBusy.block [4]) true
        ∈ (fullMaintain fullEnvBusy (BlockId.number 9) [4]).1
      ∧ ((fullMaintain fullEnvBusy (BlockId.number 9) [4]).1.any
          (fun e => e.isClientBlock)) = true) :=
  ⟨(full_empty_short_circuit fullEnvEmpty (BlockId.number 9) [4]).1 rfl,
   (full_empty_short_circuit fullEnvBusy (BlockId.number 9) [4]).2 rfl⟩

/-- Witness for C5 at a concrete environment: the trace splits around the
prune event, with the whole resubmission step before it. -/
theorem full_resubmit_before_prune_witness :
    ∃ pre post,
      (fullMaintain fullEnvBusy (BlockId.number 9) [4]).1
        = pre ++ Event.prune (BlockId.number 9)
            (BlockId.hash sampleBlock.header.parent_hash)
            sampleBlock.extrinsics :: post
      ∧ Event.submitAt (BlockId.number 9)
          (retractedTransactions fullEnvBusy.block [4]) true ∈ pre
      ∧ ∀ e, fullEnvBusy.submitResult = Except.error e →
          Event.warn ("Error re-submitting transactions: " ++ e) ∈ pre :=
  full_resubmit_before_prune fullEnvBusy (BlockId.number 9) [4] sampleBlock rfl rfl

/-- Witness for C8 at a concrete environment: an empty pool clears an armed
schedule and the trace is empty. -/
theorem light_empty_clears_witness :
    (lightMaintain lightEnvEmptyPool (BlockId.number 9) [4]).1 = []
    ∧ (lightMaintain lightEnvEmptyPool (BlockId.number 9) [4]).2.1
        = notScheduled :=
  light_empty_clears lightEnvEmptyPool (BlockId.number 9) [4] rfl

/-- Witness for C9 at concrete environments: a due schedule triggers the
revalidation call, logs its failure and clears the status; an idle status
issues nothing and is not cleared. -/
theorem light_revalidate_step_witness :
    (Event.revalidateReady (BlockId.number 9)
        ∈ (lightRevalidate lightEnvBusy (BlockId.number 9) 5).1
      ∧ (lightRevalidate lightEnvBusy (BlockId.number 9) 5).2 = notScheduled
      ∧ ∀ e, lightEnvBusy.revalidateReadyResult = Except.error e →
          Event.warn ("Error revalidating known transactions: " ++ e)
            ∈ (lightRevalidate lightEnvBusy (BlockId.number 9) 5).1)
    ∧ ((lightRevalidate lightEnvIdle (BlockId.number 9) 5).1 = []
      ∧ (lightRevalidate lightEnvIdle (BlockId.number 9) 5).2 ≠ notScheduled) :=
  ⟨(light_revalidate_step lightEnvBusy (BlockId.number 9) 5).1 rfl,
   (light_revalidate_step lightEnvIdle (BlockId.number 9) 5).2 rfl⟩

end Maintainer
